import Mathlib

/-!
Verification of the Fudly inventory reservation and booking lifecycle engine.

The definitions below are a shallow embedding of the reservation-related code
in `src/database.py` and `src/bot.py`:

* the `offers` table is modelled as a partial map `Nat → Option Offer`
  (keyed by the `offer_id` primary key) together with the list `offer_ids`
  of row keys (used only where the SQL reports a row count over the table);
* the `bookings` table is modelled as a `List Booking` (rows in insertion
  order, `booking_id` assigned from an autoincrement counter);
* `expiry_date TEXT` (nullable, compared with `date(expiry_date) < date('now')`)
  is modelled as `Option Int` (a day ordinal) compared with `<` against a
  `today` parameter;
* the random 6-character booking code produced by `random.choices` inside
  `create_booking_atomic` is passed in as an explicit `code : String`
  parameter (the embedding of a sampled value);
* SQLite quantities are `INTEGER` columns, modelled as `Int`; the columns are
  populated on every row in this model, so the Python `offer[0] is None`
  guard has no failing case here.
-/

inductive OfferStatus
  | active
  | inactive
  | deleted
deriving DecidableEq, Repr

inductive BookingStatus
  | pending
  | confirmed
  | completed
  | cancelled
deriving DecidableEq, Repr

/-- A row of the `offers` table (the columns the reservation engine reads). -/
structure Offer where
  quantity : Int
  status : OfferStatus
  expiry_date : Option Int
deriving DecidableEq, Repr

/-- A row of the `bookings` table. -/
structure Booking where
  booking_id : Nat
  offer_id : Nat
  user_id : Nat
  status : BookingStatus
  booking_code : String
  quantity : Int
deriving DecidableEq, Repr

/-- The backing store: the two tables the engine mutates. -/
structure DB where
  offer_ids : List Nat
  offers : Nat → Option Offer
  bookings : List Booking
  next_booking_id : Nat

/-- `SELECT quantity, status FROM offers WHERE offer_id = ? AND status = 'active'`
(the read inside `create_booking_atomic`). -/
def select_active (db : DB) (offer_id : Nat) : Option Offer :=
  match db.offers offer_id with
  | some o => if o.status = OfferStatus.active then some o else none
  | none => none

/-- Embeds `Database.create_booking_atomic` (src/database.py).  Inside one
transaction it reads the offer row (only if `status = 'active'`), fails when
the row is missing or `quantity < requested`, otherwise decrements the
quantity (flipping `status` to `'inactive'` when the new quantity is `≤ 0`)
with an `UPDATE ... WHERE offer_id = ? AND quantity = ?` compare-and-swap,
and inserts a `'pending'` booking row carrying the freshly generated `code`.
Returns `((ok, booking_id, booking_code), new state)`; every failure path
rolls the transaction back, returning the state unchanged. -/
def create_booking_atomic (db : DB) (offer_id user_id : Nat) (quantity : Int)
    (code : String) : (Bool × Option Nat × Option String) × DB :=
  match select_active db offer_id with
  | none => ((false, none, none), db)
  | some offer =>
    if offer.quantity < quantity ∨ offer.status ≠ OfferStatus.active then
      ((false, none, none), db)
    else
      let current_quantity := offer.quantity
      let new_quantity := current_quantity - quantity
      let offers' : Nat → Option Offer := fun k =>
        if k = offer_id then
          (db.offers k).map fun r =>
            if r.quantity = current_quantity then
              { r with quantity := new_quantity,
                       status := if new_quantity ≤ 0 then OfferStatus.inactive
                                 else OfferStatus.active }
            else r
        else db.offers k
      let rowcount : Nat :=
        match db.offers offer_id with
        | some r => if r.quantity = current_quantity then 1 else 0
        | none => 0
      if rowcount = 0 then ((false, none, none), db)
      else
        let b : Booking :=
          { booking_id := db.next_booking_id, offer_id := offer_id,
            user_id := user_id, status := BookingStatus.pending,
            booking_code := code, quantity := quantity }
        ((true, some db.next_booking_id, some code),
         { db with offers := offers',
                   bookings := db.bookings ++ [b],
                   next_booking_id := db.next_booking_id + 1 })

/-- Embeds `Database.update_offer_quantity`: writes the new quantity and keeps
status in lockstep — `quantity = 0, status = 'inactive'` when the new value is
`≤ 0`, otherwise `status = 'active'`. -/
def update_offer_quantity (db : DB) (offer_id : Nat) (new_quantity : Int) : DB :=
  if new_quantity ≤ 0 then
    { db with offers := fun k =>
        if k = offer_id then
          (db.offers k).map fun r =>
            { r with quantity := 0, status := OfferStatus.inactive }
        else db.offers k }
  else
    { db with offers := fun k =>
        if k = offer_id then
          (db.offers k).map fun r =>
            { r with quantity := new_quantity, status := OfferStatus.active }
        else db.offers k }

/-- Embeds `Database.increment_offer_quantity`: reads the current quantity and
delegates to `update_offer_quantity` with `current + amount`; a no-op when the
offer row does not exist. -/
def increment_offer_quantity (db : DB) (offer_id : Nat) (amount : Int) : DB :=
  match db.offers offer_id with
  | none => db
  | some o => update_offer_quantity db offer_id (o.quantity + amount)

/-- `Database.get_offer`: plain lookup of the offer row by id, with no status
or expiry filter. -/
def get_offer (db : DB) (offer_id : Nat) : Option Offer :=
  db.offers offer_id

/-- `Database.get_booking`: first bookings row with the given `booking_id`. -/
def get_booking (db : DB) (booking_id : Nat) : Option Booking :=
  db.bookings.find? fun b => b.booking_id == booking_id

/-- `Database.update_booking_status`:
`UPDATE bookings SET status = ? WHERE booking_id = ?`. -/
def update_booking_status (db : DB) (booking_id : Nat) (status : BookingStatus) : DB :=
  { db with bookings := db.bookings.map fun b =>
      if b.booking_id == booking_id then { b with status := status } else b }

/-- The predicate of the sweep in `Database.delete_expired_offers`:
`status = 'active' AND expiry_date IS NOT NULL AND date(expiry_date) < date('now')`. -/
def expired_active (today : Int) (o : Offer) : Bool :=
  o.status == OfferStatus.active && o.expiry_date.isSome
    && decide (o.expiry_date.getD 0 < today)

/-- Embeds `Database.delete_expired_offers`: one bulk
`UPDATE offers SET status = 'inactive' WHERE status = 'active' AND expiry_date
IS NOT NULL AND date(expiry_date) < date('now')`, returning the row count of
updated rows together with the new state. -/
def delete_expired_offers (db : DB) (today : Int) : Nat × DB :=
  (db.offer_ids.countP (fun oid =>
      match db.offers oid with
      | some o => expired_active today o
      | none => false),
   { db with offers := fun k =>
       (db.offers k).map fun o =>
         if expired_active today o then { o with status := OfferStatus.inactive }
         else o })

/-- What the `cancel_booking` callback handler shows the pressing user:
either the `booking_cancelled` message edit, or nothing beyond the bare
`callback.answer()` acknowledgement. -/
inductive CancelOutcome
  | cancelledMessage
  | noFeedback
deriving DecidableEq, Repr

/-- Embeds the `cancel_booking` handler in src/bot.py: looks the booking up;
only when its status is `'pending'` or `'confirmed'` and the offer row exists
does it set the booking to `'cancelled'` and credit the booked quantity back
via `increment_offer_quantity`; in every other case nothing is mutated and no
message is produced (the bare acknowledgement). -/
def bot_cancel_booking (db : DB) (booking_id : Nat) : CancelOutcome × DB :=
  match get_booking db booking_id with
  | some booking =>
    if booking.status = BookingStatus.pending
        ∨ booking.status = BookingStatus.confirmed then
      match get_offer db booking.offer_id with
      | some _ =>
        let db1 := update_booking_status db booking_id BookingStatus.cancelled
        let db2 := increment_offer_quantity db1 booking.offer_id booking.quantity
        (CancelOutcome.cancelledMessage, db2)
      | none => (CancelOutcome.cancelledMessage, db)
    else (CancelOutcome.noFeedback, db)
  | none => (CancelOutcome.noFeedback, db)

/-- Embeds the `complete_booking` handler in src/bot.py: looks the booking up;
only when its status is `'pending'` or `'confirmed'` does it run
`UPDATE bookings SET status = 'completed' WHERE booking_id = ?`; otherwise
nothing is mutated and no message is produced.  The `Bool` records whether the
completion branch ran (the completion message was shown). -/
def bot_complete_booking (db : DB) (booking_id : Nat) : Bool × DB :=
  match get_booking db booking_id with
  | some booking =>
    if booking.status = BookingStatus.pending
        ∨ booking.status = BookingStatus.confirmed then
      (true, update_booking_status db booking_id BookingStatus.completed)
    else (false, db)
  | none => (false, db)

/-- Embeds the quantity-validation prefix of the `book_offer_quantity` handler
in src/bot.py: the handler rejects `quantity < 1`, rejects a missing offer or
`offer.quantity < quantity`, and otherwise calls `create_booking_atomic`.
`none` means the handler returned before reaching the atomic primitive. -/
def book_offer_quantity (db : DB) (offer_id user_id : Nat) (quantity : Int)
    (code : String) : Option ((Bool × Option Nat × Option String) × DB) :=
  if quantity < 1 then none
  else
    match get_offer db offer_id with
    | none => none
    | some o =>
      if o.quantity < quantity then none
      else some (create_booking_atomic db offer_id user_id quantity code)

/-! ### Characterisation lemmas for `create_booking_atomic` -/

theorem select_active_eq_some {db : DB} {oid : Nat} {o : Offer} :
    select_active db oid = some o ↔
      db.offers oid = some o ∧ o.status = OfferStatus.active := by
  unfold select_active
  cases h : db.offers oid with
  | none => simp
  | some r =>
    show (if r.status = OfferStatus.active then some r else none) = some o ↔
      some r = some o ∧ o.status = OfferStatus.active
    constructor
    · intro h1
      by_cases hs : r.status = OfferStatus.active
      · rw [if_pos hs] at h1
        injection h1 with h1
        subst h1
        exact ⟨rfl, hs⟩
      · rw [if_neg hs] at h1
        cases h1
    · rintro ⟨h1, h2⟩
      injection h1 with h1
      subst h1
      rw [if_pos h2]

theorem cba_fail_of_select_none {db : DB} {oid uid : Nat} {q : Int} {code : String}
    (h : select_active db oid = none) :
    create_booking_atomic db oid uid q code = ((false, none, none), db) := by
  unfold create_booking_atomic
  rw [h]

theorem cba_fail_of_lt {db : DB} {oid uid : Nat} {q : Int} {code : String} {o : Offer}
    (h : select_active db oid = some o) (hlt : o.quantity < q) :
    create_booking_atomic db oid uid q code = ((false, none, none), db) := by
  unfold create_booking_atomic
  rw [h]
  show (if o.quantity < q ∨ o.status ≠ OfferStatus.active then ((false, none, none), db)
    else _) = ((false, none, none), db)
  rw [if_pos (Or.inl hlt)]

/-- The booking row inserted by a successful `create_booking_atomic` call. -/
def new_booking (db : DB) (oid uid : Nat) (q : Int) (code : String) : Booking :=
  { booking_id := db.next_booking_id, offer_id := oid, user_id := uid,
    status := BookingStatus.pending, booking_code := code, quantity := q }

/-- The offer row after a successful reservation of `q` units from `o`. -/
def reserved_offer (o : Offer) (q : Int) : Offer :=
  { o with quantity := o.quantity - q,
           status := if o.quantity - q ≤ 0 then OfferStatus.inactive
                     else OfferStatus.active }

theorem cba_success {db : DB} {oid uid : Nat} {q : Int} {code : String} {o : Offer}
    (ho : db.offers oid = some o) (hact : o.status = OfferStatus.active)
    (hq : q ≤ o.quantity) :
    create_booking_atomic db oid uid q code =
      ((true, some db.next_booking_id, some code),
       { db with
         offers := fun k =>
           if k = oid then some (reserved_offer o q) else db.offers k,
         bookings := db.bookings ++ [new_booking db oid uid q code],
         next_booking_id := db.next_booking_id + 1 }) := by
  have hsel : select_active db oid = some o := select_active_eq_some.mpr ⟨ho, hact⟩
  have hnot : ¬ (o.quantity < q ∨ o.status ≠ OfferStatus.active) :=
    not_or.mpr ⟨not_lt.mpr hq, fun hne => hne hact⟩
  unfold create_booking_atomic
  rw [hsel]
  show (if o.quantity < q ∨ o.status ≠ OfferStatus.active then ((false, none, none), db)
      else _) = _
  rw [if_neg hnot, ho]
  show (if (if o.quantity = o.quantity then (1 : Nat) else 0) = 0
      then ((false, none, none), db) else _) = _
  rw [if_pos rfl, if_neg (by decide : ¬ (1 : Nat) = 0)]
  have hoff : (fun k =>
      if k = oid then
        Option.map (fun r =>
          if r.quantity = o.quantity then
            { r with quantity := o.quantity - q,
                     status := if o.quantity - q ≤ 0 then OfferStatus.inactive
                               else OfferStatus.active }
          else r) (db.offers k)
      else db.offers k)
      = fun k => if k = oid then some (reserved_offer o q) else db.offers k := by
    funext k
    by_cases hk : k = oid
    · subst hk
      simp [ho, reserved_offer]
    · simp [hk]
  exact congrArg (fun F => ((true, some db.next_booking_id, some code),
    ({ offer_ids := db.offer_ids, offers := F,
       bookings := db.bookings ++ [new_booking db oid uid q code],
       next_booking_id := db.next_booking_id + 1 } : DB))) hoff

theorem select_active_eq_none_of_not_active {db : DB} {oid : Nat} {o : Offer}
    (ho : db.offers oid = some o) (hact : o.status ≠ OfferStatus.active) :
    select_active db oid = none := by
  unfold select_active
  rw [ho]
  show (if o.status = OfferStatus.active then some o else none) = none
  rw [if_neg hact]

theorem cba_cases (db : DB) (oid uid : Nat) (q : Int) (code : String) :
    create_booking_atomic db oid uid q code = ((false, none, none), db) ∨
    ∃ o, db.offers oid = some o ∧ o.status = OfferStatus.active ∧ q ≤ o.quantity ∧
      create_booking_atomic db oid uid q code =
        ((true, some db.next_booking_id, some code),
         { db with
           offers := fun k =>
             if k = oid then some (reserved_offer o q) else db.offers k,
           bookings := db.bookings ++ [new_booking db oid uid q code],
           next_booking_id := db.next_booking_id + 1 }) := by
  cases hsel : select_active db oid with
  | none => exact Or.inl (cba_fail_of_select_none hsel)
  | some o =>
    obtain ⟨ho, hact⟩ := select_active_eq_some.mp hsel
    by_cases hlt : o.quantity < q
    · exact Or.inl (cba_fail_of_lt hsel hlt)
    · exact Or.inr ⟨o, ho, hact, not_lt.mp hlt, cba_success ho hact (not_lt.mp hlt)⟩

/-- Claim C1: for a requested quantity strictly greater than the remaining
quantity, `create_booking_atomic` fails with `ok = false`, no booking id, no
code, and the state (in particular the offer's remaining quantity) unchanged;
and the call succeeds exactly when the offer row exists with status `'active'`
and remaining quantity at least the requested quantity. -/
theorem reserve_exhausted_and_success_condition (db : DB) (oid uid : Nat)
    (q : Int) (code : String) :
    (∀ o, db.offers oid = some o → o.quantity < q →
        create_booking_atomic db oid uid q code = ((false, none, none), db)) ∧
    ((create_booking_atomic db oid uid q code).1.1 = true ↔
        ∃ o, db.offers oid = some o ∧ o.status = OfferStatus.active
          ∧ q ≤ o.quantity) := by
  constructor
  · intro o ho hlt
    by_cases hact : o.status = OfferStatus.active
    · exact cba_fail_of_lt (select_active_eq_some.mpr ⟨ho, hact⟩) hlt
    · exact cba_fail_of_select_none (select_active_eq_none_of_not_active ho hact)
  · constructor
    · intro htrue
      rcases cba_cases db oid uid q code with hfail | ⟨o, ho, hact, hq, _⟩
      · rw [hfail] at htrue
        cases htrue
      · exact ⟨o, ho, hact, hq⟩
    · rintro ⟨o, ho, hact, hq⟩
      rw [cba_success ho hact hq]

/-- Claim C3: every `create_booking_atomic` call is all-or-nothing — either it
fails returning `(false, none, none)` with the state (offer row and bookings
table) exactly as before, or it succeeds and in the same step both appends the
new `'pending'` booking row and replaces the offer row by its decremented
version, leaving every other offer row untouched. -/
theorem reserve_all_or_nothing (db : DB) (oid uid : Nat) (q : Int)
    (code : String) :
    create_booking_atomic db oid uid q code = ((false, none, none), db) ∨
    ((create_booking_atomic db oid uid q code).1.1 = true ∧
     ∃ o, db.offers oid = some o ∧
       (create_booking_atomic db oid uid q code).2.bookings
         = db.bookings ++ [new_booking db oid uid q code] ∧
       (new_booking db oid uid q code).status = BookingStatus.pending ∧
       (new_booking db oid uid q code).quantity = q ∧
       (create_booking_atomic db oid uid q code).2.offers oid
         = some (reserved_offer o q) ∧
       (reserved_offer o q).quantity = o.quantity - q ∧
       ∀ k, k ≠ oid → (create_booking_atomic db oid uid q code).2.offers k
         = db.offers k) := by
  rcases cba_cases db oid uid q code with hfail | ⟨o, ho, _, _, hsucc⟩
  · exact Or.inl hfail
  · refine Or.inr ⟨by rw [hsucc], o, ho, by rw [hsucc], rfl, rfl, ?_, rfl, ?_⟩
    · rw [hsucc]
      show (if oid = oid then some (reserved_offer o q) else db.offers oid)
        = some (reserved_offer o q)
      rw [if_pos rfl]
    · intro k hk
      rw [hsucc]
      show (if k = oid then some (reserved_offer o q) else db.offers k)
        = db.offers k
      rw [if_neg hk]

/-- Claim C10: `create_booking_atomic` enforces no lower bound on the
requested quantity — any integer `q ≤` the stored quantity (including `0` and
negative values) succeeds against an existing `'active'` offer, sets the
remaining quantity to `stored - q`, and inserts a `'pending'` booking of
quantity `q`; the `q ≥ 1` check lives only in the Telegram handler
`book_offer_quantity`, which returns before reaching the primitive when
`q < 1`. -/
theorem reserve_no_lower_bound (db : DB) (oid uid : Nat) (q : Int)
    (code : String) (o : Offer) (ho : db.offers oid = some o)
    (hact : o.status = OfferStatus.active) (hq : q ≤ o.quantity) :
    (create_booking_atomic db oid uid q code).1.1 = true ∧
    (create_booking_atomic db oid uid q code).2.offers oid
      = some (reserved_offer o q) ∧
    (reserved_offer o q).quantity = o.quantity - q ∧
    (create_booking_atomic db oid uid q code).2.bookings
      = db.bookings ++ [new_booking db oid uid q code] ∧
    (new_booking db oid uid q code).status = BookingStatus.pending ∧
    (new_booking db oid uid q code).quantity = q ∧
    (q < 1 → book_offer_quantity db oid uid q code = none) := by
  refine ⟨by rw [cba_success ho hact hq], ?_, rfl, by rw [cba_success ho hact hq],
    rfl, rfl, ?_⟩
  · rw [cba_success ho hact hq]
    show (if oid = oid then some (reserved_offer o q) else db.offers oid)
      = some (reserved_offer o q)
    rw [if_pos rfl]
  · intro hlt
    unfold book_offer_quantity
    rw [if_pos hlt]

/-- A concrete offer row used to exercise the theorems on explicit inputs. -/
def offer_one : Offer :=
  { quantity := 3, status := OfferStatus.active, expiry_date := none }

/-- A concrete store state: one active offer (id 1, quantity 3), no bookings. -/
def db_one : DB :=
  { offer_ids := [1],
    offers := fun k => if k = 1 then some offer_one else none,
    bookings := [],
    next_booking_id := 0 }

/-- Witness for claim C10 at the concrete input `q = -2` against `db_one`. -/
theorem reserve_no_lower_bound_witness :
    db_one.offers 1 = some offer_one ∧
    offer_one.status = OfferStatus.active ∧
    (-2 : Int) ≤ offer_one.quantity ∧
    ((create_booking_atomic db_one 1 7 (-2) "X0X0X0").1.1 = true ∧
     (create_booking_atomic db_one 1 7 (-2) "X0X0X0").2.offers 1
       = some (reserved_offer offer_one (-2)) ∧
     (reserved_offer offer_one (-2)).quantity = offer_one.quantity - (-2) ∧
     (create_booking_atomic db_one 1 7 (-2) "X0X0X0").2.bookings
       = db_one.bookings ++ [new_booking db_one 1 7 (-2) "X0X0X0"] ∧
     (new_booking db_one 1 7 (-2) "X0X0X0").status = BookingStatus.pending ∧
     (new_booking db_one 1 7 (-2) "X0X0X0").quantity = -2 ∧
     ((-2 : Int) < 1 → book_offer_quantity db_one 1 7 (-2) "X0X0X0" = none)) :=
  ⟨rfl, rfl, by decide,
   reserve_no_lower_bound db_one 1 7 (-2) "X0X0X0" offer_one rfl rfl (by decide)⟩

/-- The lockstep invariant of the offers table: a row with remaining quantity
`0` is never recorded `'active'`. -/
def LockstepInv (db : DB) : Prop :=
  ∀ oid o, db.offers oid = some o → o.quantity = 0 → o.status ≠ OfferStatus.active

theorem map_keyed_lookup {g : Nat → Option Offer} {oid k : Nat}
    {f : Offer → Offer} {o : Offer}
    (hk : (if k = oid then (g k).map f else g k) = some o) :
    (∃ r, g k = some r ∧ o = f r) ∨ g k = some o := by
  by_cases hko : k = oid
  · rw [if_pos hko] at hk
    cases hg : g k with
    | none => rw [hg] at hk; cases hk
    | some r =>
      rw [hg] at hk
      injection hk with hk
      exact Or.inl ⟨r, rfl, hk.symm⟩
  · rw [if_neg hko] at hk
    exact Or.inr hk

theorem update_offer_quantity_lockstep {db : DB} {oid : Nat} {nq : Int}
    (h : LockstepInv db) : LockstepInv (update_offer_quantity db oid nq) := by
  intro k o hk h0
  unfold update_offer_quantity at hk
  by_cases hle : nq ≤ 0
  · rw [if_pos hle] at hk
    have hk1 : (if k = oid then
        (db.offers k).map (fun r =>
          { r with quantity := 0, status := OfferStatus.inactive })
        else db.offers k) = some o := hk
    rcases map_keyed_lookup hk1 with ⟨r, _, rfl⟩ | hold
    · exact fun hc => by cases hc
    · exact h k o hold h0
  · rw [if_neg hle] at hk
    have hk1 : (if k = oid then
        (db.offers k).map (fun r =>
          { r with quantity := nq, status := OfferStatus.active })
        else db.offers k) = some o := hk
    rcases map_keyed_lookup hk1 with ⟨r, _, rfl⟩ | hold
    · exact absurd (h0 : nq = 0) (not_le.mp hle).ne'
    · exact h k o hold h0

theorem increment_offer_quantity_lockstep {db : DB} {oid : Nat} {amount : Int}
    (h : LockstepInv db) : LockstepInv (increment_offer_quantity db oid amount) := by
  unfold increment_offer_quantity
  cases hdb : db.offers oid with
  | none => exact h
  | some r => exact update_offer_quantity_lockstep h

theorem cba_lockstep {db : DB} {oid uid : Nat} {q : Int} {code : String}
    (h : LockstepInv db) :
    LockstepInv (create_booking_atomic db oid uid q code).2 := by
  rcases cba_cases db oid uid q code with hfail | ⟨o, ho, hact, hq, hsucc⟩
  · rw [hfail]
    exact h
  · rw [hsucc]
    intro k o' hk h0
    have hk1 : (if k = oid then some (reserved_offer o q) else db.offers k)
        = some o' := hk
    by_cases hko : k = oid
    · rw [if_pos hko] at hk1
      injection hk1 with hk1
      subst hk1
      have h0' : o.quantity - q = 0 := h0
      show (if o.quantity - q ≤ 0 then OfferStatus.inactive else OfferStatus.active)
          ≠ OfferStatus.active
      rw [if_pos (le_of_eq h0')]
      exact fun hc => by cases hc
    · rw [if_neg hko] at hk1
      exact h k o' hk1 h0

/-- Claim C4: every quantity mutator keeps quantity and status in lockstep.
If every offer row with quantity `0` is non-`'active'` before the call, the
same holds after `create_booking_atomic` (Reserve), after
`increment_offer_quantity` (Release), and after `update_offer_quantity` —
each flips status to `'inactive'` in the same atomic step whenever it drives
the remaining quantity to `0`. -/
theorem quantity_status_lockstep (db : DB) (oid uid : Nat) (q amount nq : Int)
    (code : String) (h : LockstepInv db) :
    LockstepInv (create_booking_atomic db oid uid q code).2 ∧
    LockstepInv (increment_offer_quantity db oid amount) ∧
    LockstepInv (update_offer_quantity db oid nq) :=
  ⟨cba_lockstep h, increment_offer_quantity_lockstep h,
   update_offer_quantity_lockstep h⟩

theorem lockstep_db_one : LockstepInv db_one := by
  intro oid o h h0
  have h1 : (if oid = 1 then some offer_one else none) = some o := h
  by_cases hk : oid = 1
  · rw [if_pos hk] at h1
    injection h1 with h1
    subst h1
    exact absurd h0 (by decide)
  · rw [if_neg hk] at h1
    cases h1

/-- Witness for claim C4 at concrete inputs against `db_one`. -/
theorem quantity_status_lockstep_witness :
    LockstepInv db_one ∧
    (LockstepInv (create_booking_atomic db_one 1 7 3 "COD111").2 ∧
     LockstepInv (increment_offer_quantity db_one 1 2) ∧
     LockstepInv (update_offer_quantity db_one 1 0)) :=
  ⟨lockstep_db_one,
   quantity_status_lockstep db_one 1 7 3 2 0 "COD111" lockstep_db_one⟩

/-- An offer still recorded `'active'` whose expiry day `-5` lies before
day `0` (the sweep has not run yet). -/
def expired_offer : Offer :=
  { quantity := 2, status := OfferStatus.active, expiry_date := some (-5) }

/-- A store state holding only `expired_offer` under id 1. -/
def db_expired : DB :=
  { offer_ids := [1],
    offers := fun k => if k = 1 then some expired_offer else none,
    bookings := [],
    next_booking_id := 0 }

/-- Counterexample to claim C5: against an offer whose `expiry_date` has
passed (`expired_active 0 expired_offer = true`, so the sweep at day 0 would
deactivate it) but whose recorded status is still `'active'`,
`create_booking_atomic` succeeds instead of failing — the reserve path never
re-checks the expiry date. -/
theorem reserve_ignores_expiry_cex :
    expired_active 0 expired_offer = true ∧
    (create_booking_atomic db_expired 1 7 1 "ZZZ999").1.1 = true := by
  constructor
  · decide
  · rw [cba_success (o := expired_offer) rfl rfl (by decide)]

/-- Claim C5 (amended): the reserve path does not re-check expiry: whenever
the offer row exists with recorded status `'active'` and sufficient quantity,
`create_booking_atomic` succeeds even when `expired_active today` holds of the
row — expiry is enforced only by the sweep, not by the reserve path. -/
theorem reserve_ignores_expiry (db : DB) (oid uid : Nat) (q today : Int)
    (code : String) (o : Offer) (ho : db.offers oid = some o)
    (hact : o.status = OfferStatus.active) (hq : q ≤ o.quantity)
    (_hexp : expired_active today o = true) :
    (create_booking_atomic db oid uid q code).1.1 = true := by
  rw [cba_success ho hact hq]

/-- Witness for claim C5 (amended) at the concrete expired offer. -/
theorem reserve_ignores_expiry_witness :
    db_expired.offers 1 = some expired_offer ∧
    expired_offer.status = OfferStatus.active ∧
    (1 : Int) ≤ expired_offer.quantity ∧
    expired_active 0 expired_offer = true ∧
    (create_booking_atomic db_expired 1 7 1 "QQ77QQ").1.1 = true :=
  ⟨rfl, rfl, by decide, by decide,
   reserve_ignores_expiry db_expired 1 7 1 0 "QQ77QQ" expired_offer rfl rfl
     (by decide) (by decide)⟩

/-- An offer its seller has deleted (status `'deleted'`, quantity 0). -/
def deleted_offer : Offer :=
  { quantity := 0, status := OfferStatus.deleted, expiry_date := none }

/-- A store state holding only `deleted_offer` under id 1. -/
def db_deleted : DB :=
  { offer_ids := [1],
    offers := fun k => if k = 1 then some deleted_offer else none,
    bookings := [],
    next_booking_id := 0 }

/-- Counterexample to claim C9: a cancellation-driven Release
(`increment_offer_quantity`) on an offer whose status is `'deleted'`
resurrects it to `'active'` — re-activation is not restricted to offers that
were `'inactive'` purely from exhaustion. -/
theorem release_resurrects_deleted_cex :
    deleted_offer.status = OfferStatus.deleted ∧
    (increment_offer_quantity db_deleted 1 1).offers 1
      = some { quantity := 1, status := OfferStatus.active, expiry_date := none } := by
  decide

/-- Claim C9 (amended): `increment_offer_quantity` re-activates
unconditionally — whenever the resulting quantity is positive the offer row is
written back with status `'active'`, regardless of its previous status
(`'deleted'` included) and regardless of its expiry date. -/
theorem release_reactivates_unconditionally (db : DB) (oid : Nat) (amount : Int)
    (o : Offer) (ho : db.offers oid = some o) (hpos : 0 < o.quantity + amount) :
    (increment_offer_quantity db oid amount).offers oid
      = some { o with quantity := o.quantity + amount,
                      status := OfferStatus.active } := by
  unfold increment_offer_quantity
  rw [ho]
  show (update_offer_quantity db oid (o.quantity + amount)).offers oid = _
  unfold update_offer_quantity
  rw [if_neg (not_le.mpr hpos)]
  show (if oid = oid then
      (db.offers oid).map (fun r =>
        { r with quantity := o.quantity + amount, status := OfferStatus.active })
      else db.offers oid) = _
  rw [if_pos rfl, ho]
  rfl

/-- Witness for claim C9 (amended) at the concrete deleted offer. -/
theorem release_reactivates_unconditionally_witness :
    db_deleted.offers 1 = some deleted_offer ∧
    (0 : Int) < deleted_offer.quantity + 1 ∧
    (increment_offer_quantity db_deleted 1 1).offers 1
      = some { deleted_offer with quantity := deleted_offer.quantity + 1,
                                  status := OfferStatus.active } :=
  ⟨rfl, by decide,
   release_reactivates_unconditionally db_deleted 1 1 deleted_offer rfl (by decide)⟩

/-- An existing pending booking whose pickup code is `"AAAAAA"`. -/
def booking_dup : Booking :=
  { booking_id := 0, offer_id := 1, user_id := 5,
    status := BookingStatus.pending, booking_code := "AAAAAA", quantity := 1 }

/-- A store state with one active offer and the pending booking
`booking_dup` already holding code `"AAAAAA"`. -/
def db_dup : DB :=
  { offer_ids := [1],
    offers := fun k => if k = 1 then some offer_one else none,
    bookings := [booking_dup],
    next_booking_id := 1 }

/-- Counterexample to claim C8: the freshly generated code `"AAAAAA"` collides
with the code of an existing pending booking, yet the reservation succeeds and
inserts the duplicate as-is — there is no uniqueness check and no
regeneration, so two pending bookings end up sharing the code. -/
theorem code_collision_cex :
    (create_booking_atomic db_dup 1 7 1 "AAAAAA").1.1 = true ∧
    (create_booking_atomic db_dup 1 7 1 "AAAAAA").1.2.2 = some "AAAAAA" ∧
    ((create_booking_atomic db_dup 1 7 1 "AAAAAA").2.bookings.countP
      (fun b => b.booking_code == "AAAAAA"
        && b.status == BookingStatus.pending)) = 2 := by
  refine ⟨?_, ?_, ?_⟩ <;>
    (rw [cba_success (o := offer_one) rfl rfl (by decide)]; try rfl)

/-- Claim C8 (amended): `create_booking_atomic` performs no uniqueness check
on the generated pickup code: whenever some existing booking already carries
the generated code with status `'pending'` and the reservation nevertheless
succeeds, the store ends up with at least two pending bookings sharing that
code (the engine inserts the colliding code instead of regenerating). -/
theorem duplicate_code_inserted (db : DB) (oid uid : Nat) (q : Int)
    (code : String) (b0 : Booking) (hb : b0 ∈ db.bookings)
    (hcode : b0.booking_code = code) (hst : b0.status = BookingStatus.pending)
    (hok : (create_booking_atomic db oid uid q code).1.1 = true) :
    2 ≤ ((create_booking_atomic db oid uid q code).2.bookings.filter
        (fun b => b.booking_code == code
          && b.status == BookingStatus.pending)).length := by
  rcases cba_cases db oid uid q code with hfail | ⟨o, ho, hact, hq, hsucc⟩
  · rw [hfail] at hok
    cases hok
  · rw [hsucc]
    show 2 ≤ ((db.bookings ++ [new_booking db oid uid q code]).filter
        (fun b => b.booking_code == code
          && b.status == BookingStatus.pending)).length
    rw [List.filter_append, List.length_append]
    have h1 : 0 < (db.bookings.filter
        (fun b => b.booking_code == code
          && b.status == BookingStatus.pending)).length := by
      refine List.length_pos_of_mem (a := b0) (List.mem_filter.mpr ⟨hb, ?_⟩)
      rw [hcode, hst]
      simp
    have h2 : (([new_booking db oid uid q code]).filter
        (fun b => b.booking_code == code
          && b.status == BookingStatus.pending)).length = 1 := by
      simp [new_booking]
    omega

/-- Witness for claim C8 (amended): the concrete collision against `db_dup`. -/
theorem duplicate_code_inserted_witness :
    booking_dup ∈ db_dup.bookings ∧
    booking_dup.booking_code = "AAAAAA" ∧
    booking_dup.status = BookingStatus.pending ∧
    (create_booking_atomic db_dup 1 7 1 "AAAAAA").1.1 = true ∧
    2 ≤ ((create_booking_atomic db_dup 1 7 1 "AAAAAA").2.bookings.filter
        (fun b => b.booking_code == "AAAAAA"
          && b.status == BookingStatus.pending)).length :=
  ⟨by decide, rfl, rfl,
   by rw [cba_success (o := offer_one) rfl rfl (by decide)],
   duplicate_code_inserted db_dup 1 7 1 "AAAAAA" booking_dup (by decide) rfl rfl
     (by rw [cba_success (o := offer_one) rfl rfl (by decide)])⟩

theorem get_booking_update_booking_status (db : DB) (bid : Nat)
    (st : BookingStatus) :
    get_booking (update_booking_status db bid st) bid
      = (get_booking db bid).map fun b => { b with status := st } := by
  unfold get_booking update_booking_status
  show (db.bookings.map (fun b =>
      if b.booking_id == bid then { b with status := st } else b)).find?
        (fun b => b.booking_id == bid)
    = (db.bookings.find? (fun b => b.booking_id == bid)).map
        (fun b => { b with status := st })
  rw [List.find?_map]
  have hpf : ((fun b => b.booking_id == bid) ∘
      (fun b => if b.booking_id == bid then { b with status := st } else b))
      = fun b : Booking => b.booking_id == bid := by
    funext b
    by_cases hc : b.booking_id = bid
    · simp [hc]
    · simp [hc]
  rw [hpf]
  cases hfind : db.bookings.find? (fun b => b.booking_id == bid) with
  | none => rfl
  | some b =>
    have hp := List.find?_some hfind
    simp only [Option.map_some']
    rw [if_pos hp]

theorem increment_bookings_eq (db : DB) (oid : Nat) (amount : Int) :
    (increment_offer_quantity db oid amount).bookings = db.bookings := by
  unfold increment_offer_quantity
  cases h : db.offers oid with
  | none => rfl
  | some o =>
    show (update_offer_quantity db oid (o.quantity + amount)).bookings = db.bookings
    unfold update_offer_quantity
    split <;> rfl

theorem bot_cancel_noop_of_terminal {db : DB} {bid : Nat} {b : Booking}
    (hb : get_booking db bid = some b)
    (hnp : ¬ (b.status = BookingStatus.pending
      ∨ b.status = BookingStatus.confirmed)) :
    bot_cancel_booking db bid = (CancelOutcome.noFeedback, db) := by
  unfold bot_cancel_booking
  rw [hb]
  show (if b.status = BookingStatus.pending ∨ b.status = BookingStatus.confirmed
      then _ else (CancelOutcome.noFeedback, db)) = (CancelOutcome.noFeedback, db)
  rw [if_neg hnp]

theorem bot_complete_noop_of_terminal {db : DB} {bid : Nat} {b : Booking}
    (hb : get_booking db bid = some b)
    (hnp : ¬ (b.status = BookingStatus.pending
      ∨ b.status = BookingStatus.confirmed)) :
    bot_complete_booking db bid = (false, db) := by
  unfold bot_complete_booking
  rw [hb]
  show (if b.status = BookingStatus.pending ∨ b.status = BookingStatus.confirmed
      then _ else (false, db)) = (false, db)
  rw [if_neg hnp]

theorem bot_cancel_mutating {db : DB} {bid : Nat} {b : Booking} {o : Offer}
    (hb : get_booking db bid = some b)
    (hpc : b.status = BookingStatus.pending ∨ b.status = BookingStatus.confirmed)
    (ho : get_offer db b.offer_id = some o) :
    bot_cancel_booking db bid
      = (CancelOutcome.cancelledMessage,
         increment_offer_quantity
           (update_booking_status db bid BookingStatus.cancelled)
           b.offer_id b.quantity) := by
  unfold bot_cancel_booking
  rw [hb]
  show (if b.status = BookingStatus.pending ∨ b.status = BookingStatus.confirmed
      then _ else (CancelOutcome.noFeedback, db)) = _
  rw [if_pos hpc]
  show (match get_offer db b.offer_id with
        | some _ =>
          (CancelOutcome.cancelledMessage,
           increment_offer_quantity
             (update_booking_status db bid BookingStatus.cancelled)
             b.offer_id b.quantity)
        | none => (CancelOutcome.cancelledMessage, db)) = _
  rw [ho]

/-- A booking already cancelled, kept in `db_terminal`. -/
def cancelled_row : Booking :=
  { booking_id := 0, offer_id := 1, user_id := 5,
    status := BookingStatus.cancelled, booking_code := "CNL001", quantity := 1 }

/-- A store state whose only booking is already in the terminal state
`'cancelled'`. -/
def db_terminal : DB :=
  { offer_ids := [1],
    offers := fun k => if k = 1 then some offer_one else none,
    bookings := [cancelled_row],
    next_booking_id := 1 }

/-- Counterexample to claim C6: on a booking already in a terminal state the
handlers do not fail with an error reported to the caller — Cancel returns
only the bare acknowledgement (`noFeedback`, no `AlreadyCancelled` or any
message) and Complete likewise runs no reporting branch (`false`). -/
theorem terminal_silent_noop_cex :
    cancelled_row.status = BookingStatus.cancelled ∧
    (bot_cancel_booking db_terminal 0).1 = CancelOutcome.noFeedback ∧
    (bot_complete_booking db_terminal 0).1 = false := by
  decide

/-- Claim C6 (amended): Cancel and Complete on a booking already in a
terminal state (`'completed'` or `'cancelled'`) never mutate the booking or
the offer — the state is returned exactly unchanged — but they do not report
an error: both return only the bare acknowledgement.  In particular quantity
is released at most once: after a Cancel of a pending or confirmed booking
(with its offer present), a second Cancel of the same booking returns the
state unchanged with no feedback, rather than crediting quantity again. -/
theorem terminal_state_noop (db : DB) (bid : Nat) (b : Booking)
    (hb : get_booking db bid = some b) :
    ((b.status = BookingStatus.completed ∨ b.status = BookingStatus.cancelled) →
      bot_cancel_booking db bid = (CancelOutcome.noFeedback, db) ∧
      bot_complete_booking db bid = (false, db)) ∧
    ((b.status = BookingStatus.pending ∨ b.status = BookingStatus.confirmed) →
      ∀ o, get_offer db b.offer_id = some o →
        bot_cancel_booking (bot_cancel_booking db bid).2 bid
          = (CancelOutcome.noFeedback, (bot_cancel_booking db bid).2)) := by
  constructor
  · intro hterm
    have hnp : ¬ (b.status = BookingStatus.pending
        ∨ b.status = BookingStatus.confirmed) := by
      rcases hterm with h | h <;> rw [h] <;> rintro (hc | hc) <;> cases hc
    exact ⟨bot_cancel_noop_of_terminal hb hnp,
           bot_complete_noop_of_terminal hb hnp⟩
  · intro hpc o ho
    have h1 := bot_cancel_mutating hb hpc ho
    have hbk2 : get_booking (bot_cancel_booking db bid).2 bid
        = some { b with status := BookingStatus.cancelled } := by
      rw [h1]
      show get_booking (increment_offer_quantity
          (update_booking_status db bid BookingStatus.cancelled)
          b.offer_id b.quantity) bid = _
      unfold get_booking
      rw [increment_bookings_eq]
      show get_booking (update_booking_status db bid BookingStatus.cancelled) bid = _
      rw [get_booking_update_booking_status, hb]
      rfl
    exact bot_cancel_noop_of_terminal hbk2
      (by rintro (hc | hc) <;> cases hc)

/-- A pending booking used to exercise the double-cancel scenario. -/
def pending_row : Booking :=
  { booking_id := 0, offer_id := 1, user_id := 5,
    status := BookingStatus.pending, booking_code := "PND001", quantity := 1 }

/-- A store state with one active offer and one pending booking against it. -/
def db_pending : DB :=
  { offer_ids := [1],
    offers := fun k => if k = 1 then some offer_one else none,
    bookings := [pending_row],
    next_booking_id := 1 }

/-- Witness for claim C6 (amended) at the concrete state `db_pending`. -/
theorem terminal_state_noop_witness :
    get_booking db_pending 0 = some pending_row ∧
    (((pending_row.status = BookingStatus.completed
        ∨ pending_row.status = BookingStatus.cancelled) →
      bot_cancel_booking db_pending 0 = (CancelOutcome.noFeedback, db_pending) ∧
      bot_complete_booking db_pending 0 = (false, db_pending)) ∧
     ((pending_row.status = BookingStatus.pending
        ∨ pending_row.status = BookingStatus.confirmed) →
      ∀ o, get_offer db_pending pending_row.offer_id = some o →
        bot_cancel_booking (bot_cancel_booking db_pending 0).2 0
          = (CancelOutcome.noFeedback, (bot_cancel_booking db_pending 0).2))) :=
  ⟨by decide, terminal_state_noop db_pending 0 pending_row (by decide)⟩

/-- The per-row effect of the sweep: flip an expired active row to
`'inactive'`, leave every other row untouched. -/
def sweep_flip (today : Int) (o : Offer) : Offer :=
  if expired_active today o then { o with status := OfferStatus.inactive } else o

theorem sweep_flip_not_expired (today : Int) (o : Offer) :
    expired_active today (sweep_flip today o) = false := by
  unfold sweep_flip
  by_cases h : expired_active today o = true
  · rw [if_pos h]
    unfold expired_active
    simp
  · rw [if_neg h]
    simpa using h

theorem sweep_offers_eq (db : DB) (today : Int) (k : Nat) :
    (delete_expired_offers db today).2.offers k
      = (db.offers k).map (sweep_flip today) := by
  unfold delete_expired_offers sweep_flip
  rfl

theorem sweep_bookings_eq (db : DB) (today : Int) :
    (delete_expired_offers db today).2.bookings = db.bookings := rfl

theorem sweep_count_eq (db : DB) (today : Int) :
    (delete_expired_offers db today).1
      = db.offer_ids.countP (fun oid =>
          match db.offers oid with
          | some o => expired_active today o
          | none => false) := rfl

theorem sweep_second_count_zero (db : DB) (today : Int) :
    (delete_expired_offers (delete_expired_offers db today).2 today).1 = 0 := by
  rw [sweep_count_eq]
  refine List.countP_eq_zero.mpr ?_
  intro oid _
  rw [sweep_offers_eq]
  cases h : db.offers oid with
  | none => simp
  | some o =>
    intro hc
    have hc2 : expired_active today (sweep_flip today o) = true := hc
    rw [sweep_flip_not_expired] at hc2
    exact Bool.false_ne_true hc2

theorem sweep_flip_idem (today : Int) (o : Offer) :
    sweep_flip today (sweep_flip today o) = sweep_flip today o := by
  have h : ¬ expired_active today (sweep_flip today o) = true := by
    rw [sweep_flip_not_expired]
    exact Bool.false_ne_true
  conv_lhs => rw [sweep_flip]
  rw [if_neg h]

theorem sweep_second_state_eq (db : DB) (today : Int) :
    (delete_expired_offers (delete_expired_offers db today).2 today).2
      = (delete_expired_offers db today).2 := by
  have hoff : (fun k => (((delete_expired_offers db today).2.offers k).map
        (fun o => if expired_active today o
          then { o with status := OfferStatus.inactive } else o)))
      = (delete_expired_offers db today).2.offers := by
    funext k
    rw [sweep_offers_eq]
    cases h : db.offers k with
    | none => rfl
    | some o =>
      show some (sweep_flip today (sweep_flip today o)) = some (sweep_flip today o)
      rw [sweep_flip_idem]
  exact congrArg (fun F =>
    ({ offer_ids := db.offer_ids, offers := F,
       bookings := db.bookings,
       next_booking_id := db.next_booking_id } : DB)) hoff

/-- Claim C7: the expiry sweep `delete_expired_offers` is status-only and
idempotent: every offer row is mapped by `sweep_flip` — an `'active'` row
whose `expiry_date` lies before `today` becomes `'inactive'`, every other row
is returned untouched — the quantity and expiry date of every row are
preserved, bookings (and every other component of the state) are never
changed, and running the sweep a second time immediately afterwards
deactivates zero offers and returns the very same state. -/
theorem sweep_status_only_idempotent (db : DB) (today : Int) :
    (∀ k, (delete_expired_offers db today).2.offers k
        = (db.offers k).map (sweep_flip today)) ∧
    (∀ o, (sweep_flip today o).quantity = o.quantity ∧
          (sweep_flip today o).expiry_date = o.expiry_date ∧
          (if expired_active today o
           then (sweep_flip today o).status = OfferStatus.inactive
           else sweep_flip today o = o)) ∧
    (delete_expired_offers db today).2.bookings = db.bookings ∧
    (delete_expired_offers db today).2.offer_ids = db.offer_ids ∧
    (delete_expired_offers db today).2.next_booking_id = db.next_booking_id ∧
    (delete_expired_offers (delete_expired_offers db today).2 today).1 = 0 ∧
    (delete_expired_offers (delete_expired_offers db today).2 today).2
      = (delete_expired_offers db today).2 := by
  refine ⟨sweep_offers_eq db today, ?_, sweep_bookings_eq db today, rfl, rfl,
    sweep_second_count_zero db today, sweep_second_state_eq db today⟩
  intro o
  by_cases h : expired_active today o = true
  · refine ⟨?_, ?_, ?_⟩ <;> simp [sweep_flip, h]
  · refine ⟨?_, ?_, ?_⟩ <;> simp [sweep_flip, h]

/-! ### The conservation invariant (claim C2) -/

/-- Booking statuses counted by the conservation invariant. -/
def counted_status (s : BookingStatus) : Bool :=
  s == BookingStatus.pending || s == BookingStatus.confirmed
    || s == BookingStatus.completed

/-- Contribution of one booking row to the conserved amount of offer `oid`. -/
def bweight (oid : Nat) (b : Booking) : Int :=
  if b.offer_id = oid ∧ counted_status b.status then b.quantity else 0

/-- Sum of counted booking quantities against offer `oid`. -/
def booking_sum (db : DB) (oid : Nat) : Int :=
  (db.bookings.map (bweight oid)).sum

/-- Remaining quantity of offer `oid` (`0` when the row is absent). -/
def offer_qty (db : DB) (oid : Nat) : Int :=
  ((db.offers oid).map Offer.quantity).getD 0

/-- Remaining quantity plus counted booking quantities: the amount claim C2
says equals the offer's initial quantity at all times. -/
def conserved (db : DB) (oid : Nat) : Int :=
  offer_qty db oid + booking_sum db oid

/-- The three lifecycle operations of the reservation engine. -/
inductive Op
  | reserve (offer_id user_id : Nat) (n : Int) (code : String)
  | cancel (booking_id : Nat)
  | complete (booking_id : Nat)

/-- One engine step: Reserve runs `create_booking_atomic`, Cancel and
Complete run the corresponding bot handlers. -/
def applyOp (db : DB) : Op → DB
  | Op.reserve oid uid n code => (create_booking_atomic db oid uid n code).2
  | Op.cancel bid => (bot_cancel_booking db bid).2
  | Op.complete bid => (bot_complete_booking db bid).2

/-- Run a sequence of engine operations. -/
def runOps (db : DB) (ops : List Op) : DB :=
  ops.foldl applyOp db

/-- A Reserve request is well-formed when it asks for at least one unit (the
bound enforced by the Telegram handler before the primitive is reached);
Cancel and Complete are always well-formed. -/
def opOK : Op → Prop
  | Op.reserve _ _ n _ => 1 ≤ n
  | Op.cancel _ => True
  | Op.complete _ => True

/-- Structural well-formedness of the store: booking ids are unique and below
the autoincrement counter, booked quantities are at least 1, and offer
quantities are non-negative. -/
structure StoreInv (db : DB) : Prop where
  nodup : (db.bookings.map Booking.booking_id).Nodup
  fresh : ∀ b ∈ db.bookings, b.booking_id < db.next_booking_id
  bqty : ∀ b ∈ db.bookings, 1 ≤ b.quantity
  oqty : ∀ oid o, db.offers oid = some o → 0 ≤ o.quantity

theorem update_booking_status_ids (db : DB) (bid : Nat) (st : BookingStatus) :
    (update_booking_status db bid st).bookings.map Booking.booking_id
      = db.bookings.map Booking.booking_id := by
  unfold update_booking_status
  show (db.bookings.map (fun b =>
      if b.booking_id == bid then { b with status := st } else b)).map
        Booking.booking_id = _
  rw [List.map_map]
  refine List.map_congr_left fun b _ => ?_
  show (if b.booking_id == bid then { b with status := st } else b).booking_id
    = b.booking_id
  by_cases hc : b.booking_id = bid <;> simp [hc]

theorem increment_next_eq (db : DB) (oid : Nat) (amount : Int) :
    (increment_offer_quantity db oid amount).next_booking_id
      = db.next_booking_id := by
  unfold increment_offer_quantity
  cases h : db.offers oid with
  | none => rfl
  | some o =>
    show (update_offer_quantity db oid (o.quantity + amount)).next_booking_id = _
    unfold update_offer_quantity
    split <;> rfl

theorem update_offer_quantity_oqty {db : DB} {oid : Nat} {nq : Int}
    (h : ∀ k o, db.offers k = some o → 0 ≤ o.quantity) :
    ∀ k o, (update_offer_quantity db oid nq).offers k = some o
      → 0 ≤ o.quantity := by
  intro k o hk
  unfold update_offer_quantity at hk
  by_cases hle : nq ≤ 0
  · rw [if_pos hle] at hk
    have hk1 : (if k = oid then
        (db.offers k).map (fun r =>
          { r with quantity := 0, status := OfferStatus.inactive })
        else db.offers k) = some o := hk
    rcases map_keyed_lookup hk1 with ⟨r, _, rfl⟩ | hold
    · exact le_refl 0
    · exact h k o hold
  · rw [if_neg hle] at hk
    have hk1 : (if k = oid then
        (db.offers k).map (fun r =>
          { r with quantity := nq, status := OfferStatus.active })
        else db.offers k) = some o := hk
    rcases map_keyed_lookup hk1 with ⟨r, _, rfl⟩ | hold
    · exact le_of_lt (not_le.mp hle)
    · exact h k o hold

theorem increment_offer_quantity_oqty {db : DB} {oid : Nat} {amount : Int}
    (h : ∀ k o, db.offers k = some o → 0 ≤ o.quantity) :
    ∀ k o, (increment_offer_quantity db oid amount).offers k = some o
      → 0 ≤ o.quantity := by
  unfold increment_offer_quantity
  cases hdb : db.offers oid with
  | none => exact h
  | some r => exact update_offer_quantity_oqty h

theorem sum_map_flip (w : Booking → Int) (bid : Nat) (g : Booking → Booking)
    (fb : Booking)
    (hg : ∀ x, (x.booking_id == bid) = false → g x = x) :
    ∀ l : List Booking, (l.map Booking.booking_id).Nodup →
      ∀ b ∈ l, b.booking_id = bid → g b = fb →
      ((l.map g).map w).sum = (l.map w).sum + (w fb - w b) := by
  intro l
  induction l with
  | nil =>
    intro _ b hb
    cases hb
  | cons hd tl ih =>
    intro hnd b hb hbid hgb
    rw [List.map_cons, List.nodup_cons] at hnd
    rw [List.map_cons, List.map_cons, List.sum_cons, List.map_cons,
      List.sum_cons]
    rcases List.mem_cons.mp hb with rfl | htl
    · rw [hgb]
      have htlid : ∀ x ∈ tl, (x.booking_id == bid) = false := by
        intro x hx
        by_cases hxe : x.booking_id = bid
        · exfalso
          refine hnd.1 ?_
          rw [hbid, ← hxe]
          exact List.mem_map_of_mem _ hx
        · simp [hxe]
      have hmap : tl.map g = tl := by
        have hcong : ∀ x ∈ tl, g x = id x := by
          intro x hx
          rw [hg x (htlid x hx)]
          rfl
        rw [List.map_congr_left hcong, List.map_id]
      rw [hmap]
      ring
    · have hhd : (hd.booking_id == bid) = false := by
        by_cases he : hd.booking_id = bid
        · exfalso
          refine hnd.1 ?_
          rw [he, ← hbid]
          exact List.mem_map_of_mem _ htl
        · simp [he]
      rw [hg hd hhd]
      rw [ih hnd.2 b htl hbid hgb]
      ring

theorem bot_cancel_no_booking {db : DB} {bid : Nat}
    (hb : get_booking db bid = none) :
    bot_cancel_booking db bid = (CancelOutcome.noFeedback, db) := by
  unfold bot_cancel_booking
  rw [hb]

theorem bot_cancel_no_offer {db : DB} {bid : Nat} {b : Booking}
    (hb : get_booking db bid = some b)
    (hpc : b.status = BookingStatus.pending ∨ b.status = BookingStatus.confirmed)
    (ho : get_offer db b.offer_id = none) :
    bot_cancel_booking db bid = (CancelOutcome.cancelledMessage, db) := by
  unfold bot_cancel_booking
  rw [hb]
  show (if b.status = BookingStatus.pending ∨ b.status = BookingStatus.confirmed
      then _ else (CancelOutcome.noFeedback, db)) = _
  rw [if_pos hpc]
  show (match get_offer db b.offer_id with
        | some _ =>
          (CancelOutcome.cancelledMessage,
           increment_offer_quantity
             (update_booking_status db bid BookingStatus.cancelled)
             b.offer_id b.quantity)
        | none => (CancelOutcome.cancelledMessage, db)) = _
  rw [ho]

theorem bot_complete_no_booking {db : DB} {bid : Nat}
    (hb : get_booking db bid = none) :
    bot_complete_booking db bid = (false, db) := by
  unfold bot_complete_booking
  rw [hb]

theorem bot_complete_mutating {db : DB} {bid : Nat} {b : Booking}
    (hb : get_booking db bid = some b)
    (hpc : b.status = BookingStatus.pending
      ∨ b.status = BookingStatus.confirmed) :
    bot_complete_booking db bid
      = (true, update_booking_status db bid BookingStatus.completed) := by
  unfold bot_complete_booking
  rw [hb]
  show (if b.status = BookingStatus.pending ∨ b.status = BookingStatus.confirmed
      then (true, update_booking_status db bid BookingStatus.completed)
      else (false, db)) = _
  rw [if_pos hpc]

theorem bot_cancel_cases (db : DB) (bid : Nat) :
    (bot_cancel_booking db bid).2 = db ∨
    ∃ b o, get_booking db bid = some b ∧
      (b.status = BookingStatus.pending
        ∨ b.status = BookingStatus.confirmed) ∧
      get_offer db b.offer_id = some o ∧
      (bot_cancel_booking db bid).2
        = increment_offer_quantity
            (update_booking_status db bid BookingStatus.cancelled)
            b.offer_id b.quantity := by
  cases hb : get_booking db bid with
  | none =>
    left
    rw [bot_cancel_no_booking hb]
  | some b =>
    by_cases hpc : b.status = BookingStatus.pending
        ∨ b.status = BookingStatus.confirmed
    · cases ho : get_offer db b.offer_id with
      | none =>
        left
        rw [bot_cancel_no_offer hb hpc ho]
      | some o =>
        right
        exact ⟨b, o, rfl, hpc, ho, by rw [bot_cancel_mutating hb hpc ho]⟩
    · left
      rw [bot_cancel_noop_of_terminal hb hpc]

theorem bot_complete_cases (db : DB) (bid : Nat) :
    (bot_complete_booking db bid).2 = db ∨
    ∃ b, get_booking db bid = some b ∧
      (b.status = BookingStatus.pending
        ∨ b.status = BookingStatus.confirmed) ∧
      (bot_complete_booking db bid).2
        = update_booking_status db bid BookingStatus.completed := by
  cases hb : get_booking db bid with
  | none =>
    left
    rw [bot_complete_no_booking hb]
  | some b =>
    by_cases hpc : b.status = BookingStatus.pending
        ∨ b.status = BookingStatus.confirmed
    · right
      exact ⟨b, rfl, hpc, by rw [bot_complete_mutating hb hpc]⟩
    · left
      rw [bot_complete_noop_of_terminal hb hpc]

theorem increment_offers_pos {db : DB} {oid : Nat} {amount : Int} {o : Offer}
    (ho : db.offers oid = some o) (hpos : 0 < o.quantity + amount) :
    ∀ j, (increment_offer_quantity db oid amount).offers j
      = if j = oid
        then some { o with quantity := o.quantity + amount,
                           status := OfferStatus.active }
        else db.offers j := by
  intro j
  unfold increment_offer_quantity
  rw [ho]
  show (update_offer_quantity db oid (o.quantity + amount)).offers j = _
  unfold update_offer_quantity
  rw [if_neg (not_le.mpr hpos)]
  show (if j = oid then (db.offers j).map (fun r =>
      { r with quantity := o.quantity + amount, status := OfferStatus.active })
      else db.offers j) = _
  by_cases hj : j = oid
  · rw [if_pos hj, if_pos hj, hj, ho]
    rfl
  · rw [if_neg hj, if_neg hj]

theorem update_booking_status_inv {db : DB} {bid : Nat} {st : BookingStatus}
    (h : StoreInv db) : StoreInv (update_booking_status db bid st) := by
  refine ⟨?_, ?_, ?_, h.oqty⟩
  · rw [update_booking_status_ids]
    exact h.nodup
  · intro b hb
    have hb1 : b ∈ db.bookings.map (fun x =>
        if x.booking_id == bid then { x with status := st } else x) := hb
    rcases List.mem_map.mp hb1 with ⟨x, hx, rfl⟩
    show (if x.booking_id == bid then { x with status := st } else x).booking_id
      < db.next_booking_id
    by_cases hc : (x.booking_id == bid) = true
    · rw [if_pos hc]
      exact h.fresh x hx
    · rw [if_neg (by simpa using hc)]
      exact h.fresh x hx
  · intro b hb
    have hb1 : b ∈ db.bookings.map (fun x =>
        if x.booking_id == bid then { x with status := st } else x) := hb
    rcases List.mem_map.mp hb1 with ⟨x, hx, rfl⟩
    show 1 ≤ (if x.booking_id == bid
        then { x with status := st } else x).quantity
    by_cases hc : (x.booking_id == bid) = true
    · rw [if_pos hc]
      exact h.bqty x hx
    · rw [if_neg (by simpa using hc)]
      exact h.bqty x hx

theorem increment_offer_quantity_inv {db : DB} {oid : Nat} {amount : Int}
    (h : StoreInv db) : StoreInv (increment_offer_quantity db oid amount) := by
  refine ⟨?_, ?_, ?_, increment_offer_quantity_oqty h.oqty⟩
  · have hbk := increment_bookings_eq db oid amount
    rw [hbk]
    exact h.nodup
  · intro b hb
    rw [increment_bookings_eq] at hb
    rw [increment_next_eq]
    exact h.fresh b hb
  · intro b hb
    rw [increment_bookings_eq] at hb
    exact h.bqty b hb

theorem inv_reserve {db : DB} {oid uid : Nat} {n : Int} {code : String}
    (h : StoreInv db) (hn : 1 ≤ n) :
    StoreInv (create_booking_atomic db oid uid n code).2 := by
  rcases cba_cases db oid uid n code with hfail | ⟨o, ho, hact, hq, hsucc⟩
  · rw [hfail]
    exact h
  · rw [hsucc]
    refine ⟨?_, ?_, ?_, ?_⟩
    · show ((db.bookings ++ [new_booking db oid uid n code]).map
        Booking.booking_id).Nodup
      rw [List.map_append]
      show (db.bookings.map Booking.booking_id ++ [db.next_booking_id]).Nodup
      rw [List.nodup_append]
      refine ⟨h.nodup, List.nodup_singleton _, ?_⟩
      intro a ha hmem
      rw [List.mem_singleton] at hmem
      subst hmem
      rcases List.mem_map.mp ha with ⟨b, hbmem, hid⟩
      exact absurd hid (Nat.ne_of_lt (h.fresh b hbmem))
    · intro b hb
      show b.booking_id < db.next_booking_id + 1
      rcases List.mem_append.mp hb with hold | hnew
      · exact Nat.lt_succ_of_lt (h.fresh b hold)
      · rw [List.mem_singleton] at hnew
        subst hnew
        exact Nat.lt_succ_self _
    · intro b hb
      rcases List.mem_append.mp hb with hold | hnew
      · exact h.bqty b hold
      · rw [List.mem_singleton] at hnew
        subst hnew
        exact hn
    · intro k o' hk
      have hk1 : (if k = oid then some (reserved_offer o n) else db.offers k)
          = some o' := hk
      by_cases hko : k = oid
      · rw [if_pos hko] at hk1
        injection hk1 with hk1
        subst hk1
        show (0 : Int) ≤ o.quantity - n
        omega
      · rw [if_neg hko] at hk1
        exact h.oqty k o' hk1

theorem inv_cancel {db : DB} {bid : Nat} (h : StoreInv db) :
    StoreInv (bot_cancel_booking db bid).2 := by
  rcases bot_cancel_cases db bid with heq | ⟨b, o, hb, hpc, ho, heq⟩
  · rw [heq]
    exact h
  · rw [heq]
    exact increment_offer_quantity_inv (update_booking_status_inv h)

theorem inv_complete {db : DB} {bid : Nat} (h : StoreInv db) :
    StoreInv (bot_complete_booking db bid).2 := by
  rcases bot_complete_cases db bid with heq | ⟨b, hb, hpc, heq⟩
  · rw [heq]
    exact h
  · rw [heq]
    exact update_booking_status_inv h

theorem inv_applyOp {db : DB} {op : Op} (h : StoreInv db) (hok : opOK op) :
    StoreInv (applyOp db op) := by
  cases op with
  | reserve oid uid n code => exact inv_reserve h hok
  | cancel bid => exact inv_cancel h
  | complete bid => exact inv_complete h

theorem conserved_reserve (db : DB) (oid uid : Nat) (n : Int) (code : String)
    (k : Nat) :
    conserved (create_booking_atomic db oid uid n code).2 k
      = conserved db k := by
  rcases cba_cases db oid uid n code with hfail | ⟨o, ho, hact, hq, hsucc⟩
  · rw [hfail]
  · rw [hsucc]
    unfold conserved offer_qty booking_sum
    show (((if k = oid then some (reserved_offer o n) else db.offers k).map
        Offer.quantity).getD 0)
        + ((db.bookings ++ [new_booking db oid uid n code]).map
            (bweight k)).sum
      = ((db.offers k).map Offer.quantity).getD 0
        + (db.bookings.map (bweight k)).sum
    rw [List.map_append, List.sum_append]
    by_cases hk : k = oid
    · subst hk
      rw [if_pos rfl, ho]
      have hw : bweight k (new_booking db k uid n code) = n := by
        unfold bweight
        rw [if_pos ⟨rfl, rfl⟩]
        rfl
      show (reserved_offer o n).quantity
          + ((db.bookings.map (bweight k)).sum
            + (bweight k (new_booking db k uid n code) + 0))
        = o.quantity + (db.bookings.map (bweight k)).sum
      rw [hw, show (reserved_offer o n).quantity = o.quantity - n from rfl]
      ring
    · rw [if_neg hk]
      have hw : bweight k (new_booking db oid uid n code) = 0 := by
        unfold bweight
        rw [if_neg (fun hand => hk (Eq.symm hand.1))]
      show ((db.offers k).map Offer.quantity).getD 0
          + ((db.bookings.map (bweight k)).sum
            + (bweight k (new_booking db oid uid n code) + 0))
        = ((db.offers k).map Offer.quantity).getD 0
          + (db.bookings.map (bweight k)).sum
      rw [hw]
      ring

theorem conserved_cancel (db : DB) (bid : Nat) (h : StoreInv db) (k : Nat) :
    conserved (bot_cancel_booking db bid).2 k = conserved db k := by
  rcases bot_cancel_cases db bid with heq | ⟨b, o, hb, hpc, ho, heq⟩
  · rw [heq]
  · rw [heq]
    have hbmem : b ∈ db.bookings := List.mem_of_find?_eq_some hb
    have hbid : b.booking_id = bid := by
      have h1 := List.find?_some hb
      simpa using h1
    have hq1 : (1 : Int) ≤ b.quantity := h.bqty b hbmem
    have ho' : db.offers b.offer_id = some o := ho
    have ho0 : (0 : Int) ≤ o.quantity := h.oqty b.offer_id o ho'
    have hpos : (0 : Int) < o.quantity + b.quantity := by linarith
    have hoff : ∀ j, (increment_offer_quantity
        (update_booking_status db bid BookingStatus.cancelled)
        b.offer_id b.quantity).offers j
        = if j = b.offer_id
          then some { o with quantity := o.quantity + b.quantity,
                             status := OfferStatus.active }
          else db.offers j := increment_offers_pos ho' hpos
    have hbk : (increment_offer_quantity
        (update_booking_status db bid BookingStatus.cancelled)
        b.offer_id b.quantity).bookings
        = db.bookings.map (fun x => if x.booking_id == bid
            then { x with status := BookingStatus.cancelled } else x) := by
      rw [increment_bookings_eq]
      rfl
    unfold conserved offer_qty booking_sum
    rw [hoff k, hbk]
    have hflip := sum_map_flip (bweight k) bid
      (fun x => if x.booking_id == bid
        then { x with status := BookingStatus.cancelled } else x)
      { b with status := BookingStatus.cancelled }
      (fun x hx => if_neg (by simp [hx]))
    rw [hflip db.bookings h.nodup b hbmem hbid (if_pos (by simp [hbid]))]
    have hcount : counted_status b.status = true := by
      rcases hpc with hs | hs <;> rw [hs] <;> rfl
    by_cases hk : k = b.offer_id
    · subst hk
      rw [if_pos rfl, ho']
      have hwb : bweight b.offer_id b = b.quantity := by
        unfold bweight
        rw [if_pos ⟨rfl, hcount⟩]
      have hwfb : bweight b.offer_id
          { b with status := BookingStatus.cancelled } = 0 := by
        unfold bweight
        rw [if_neg (fun hand => Bool.false_ne_true hand.2)]
      show (o.quantity + b.quantity)
          + ((db.bookings.map (bweight b.offer_id)).sum
            + (bweight b.offer_id { b with status := BookingStatus.cancelled }
              - bweight b.offer_id b))
        = o.quantity + (db.bookings.map (bweight b.offer_id)).sum
      rw [hwb, hwfb]
      ring
    · rw [if_neg hk]
      have hwb : bweight k b = 0 := by
        unfold bweight
        rw [if_neg (fun hand => hk (Eq.symm hand.1))]
      have hwfb : bweight k { b with status := BookingStatus.cancelled } = 0 := by
        unfold bweight
        rw [if_neg (fun hand => hk (Eq.symm hand.1))]
      rw [hwb, hwfb]
      ring

theorem conserved_complete (db : DB) (bid : Nat) (h : StoreInv db) (k : Nat) :
    conserved (bot_complete_booking db bid).2 k = conserved db k := by
  rcases bot_complete_cases db bid with heq | ⟨b, hb, hpc, heq⟩
  · rw [heq]
  · rw [heq]
    have hbmem : b ∈ db.bookings := List.mem_of_find?_eq_some hb
    have hbid : b.booking_id = bid := by
      have h1 := List.find?_some hb
      simpa using h1
    unfold conserved offer_qty booking_sum
    show ((db.offers k).map Offer.quantity).getD 0
        + ((db.bookings.map (fun x => if x.booking_id == bid
            then { x with status := BookingStatus.completed } else x)).map
            (bweight k)).sum
      = ((db.offers k).map Offer.quantity).getD 0
        + (db.bookings.map (bweight k)).sum
    have hflip := sum_map_flip (bweight k) bid
      (fun x => if x.booking_id == bid
        then { x with status := BookingStatus.completed } else x)
      { b with status := BookingStatus.completed }
      (fun x hx => if_neg (by simp [hx]))
    rw [hflip db.bookings h.nodup b hbmem hbid (if_pos (by simp [hbid]))]
    have hsame : bweight k { b with status := BookingStatus.completed }
        = bweight k b := by
      unfold bweight
      have hc1 : counted_status b.status = true := by
        rcases hpc with hs | hs <;> rw [hs] <;> rfl
      by_cases hofs : b.offer_id = k
      · rw [if_pos ⟨hofs, rfl⟩, if_pos ⟨hofs, hc1⟩]
      · rw [if_neg (fun hand => hofs hand.1), if_neg (fun hand => hofs hand.1)]
    rw [hsame]
    ring

theorem conserved_applyOp {db : DB} {op : Op} (h : StoreInv db) (k : Nat) :
    conserved (applyOp db op) k = conserved db k := by
  cases op with
  | reserve oid uid n code => exact conserved_reserve db oid uid n code k
  | cancel bid => exact conserved_cancel db bid h k
  | complete bid => exact conserved_complete db bid h k

/-- Claim C2: conservation.  Starting from a well-formed store, after any
sequence of Reserve (`create_booking_atomic`, requesting at least one unit as
the Telegram handler guarantees), Cancel and Complete operations, for every
offer the remaining quantity plus the summed quantities of its bookings with
status in `{pending, confirmed, completed}` is exactly what it was at the
start (the offer's initial quantity): Reserve moves `n` units from the offer
to a new pending booking in one step, Cancel returns the booking's quantity,
and Complete changes no quantity. -/
theorem conservation_invariant (db : DB) (ops : List Op) (k : Nat)
    (h : StoreInv db) (hops : ∀ op ∈ ops, opOK op) :
    conserved (runOps db ops) k = conserved db k := by
  induction ops generalizing db with
  | nil => rfl
  | cons op tl ih =>
    have h1 : StoreInv (applyOp db op) :=
      inv_applyOp h (hops op (List.mem_cons_self op tl))
    have h2 : runOps db (op :: tl) = runOps (applyOp db op) tl := rfl
    rw [h2, ih (applyOp db op) h1
      (fun o ho => hops o (List.mem_cons_of_mem _ ho))]
    exact conserved_applyOp h k

theorem inv_db_one : StoreInv db_one := by
  refine ⟨by decide, ?_, ?_, ?_⟩
  · intro b hb
    cases hb
  · intro b hb
    cases hb
  · intro oid o hk
    have h1 : (if oid = 1 then some offer_one else none) = some o := hk
    by_cases hko : oid = 1
    · rw [if_pos hko] at h1
      injection h1 with h1
      subst h1
      decide
    · rw [if_neg hko] at h1
      cases h1

/-- Witness for claim C2: a concrete Reserve of 2 units followed by a Cancel
of the created booking, against `db_one`. -/
theorem conservation_invariant_witness :
    StoreInv db_one ∧
    (∀ op ∈ [Op.reserve 1 7 2 "AB12CD", Op.cancel 0], opOK op) ∧
    conserved (runOps db_one [Op.reserve 1 7 2 "AB12CD", Op.cancel 0]) 1
      = conserved db_one 1 := by
  have hops : ∀ op ∈ [Op.reserve 1 7 2 "AB12CD", Op.cancel 0], opOK op := by
    intro op hop
    rcases List.mem_cons.mp hop with rfl | hop
    · show (1 : Int) ≤ 2
      decide
    · rcases List.mem_cons.mp hop with rfl | hop
      · trivial
      · cases hop
  exact ⟨inv_db_one, hops,
    conservation_invariant db_one [Op.reserve 1 7 2 "AB12CD", Op.cancel 0] 1
      inv_db_one hops⟩
